import Mathlib

/-
  Verification of the provider-routing / response-normalization gateway of the
  webcrafter-ai-builder repository.

  The gateway lives in two serverless handlers:
    - supabase/functions/ai-code-assistant/index.ts   (the "assistant" path)
    - supabase/functions/ai-project-generator/index.ts, a file that holds the
      project-generator handler (the "generator" path) followed by an appended
      assistant variant with the code-block recovery logic (the "v2" path,
      lines 293-538 of the concatenated file).

  The embedding models:
    - JavaScript values produced by JSON.parse (`JsValue`), including the
      distinction between `undefined` and `null`, JS truthiness, member access
      with optional chaining, and strict-mode property assignment;
    - a JSON parser faithful to `JSON.parse` (strings with escapes, numbers
      kept as their raw token, duplicate keys resolved last-value-wins);
    - the provider-selection chains, header and URL construction, request-body
      construction, response-text extraction and the three normalize variants,
      each translated clause by clause from the TypeScript source.
-/

namespace Webcrafter

/-- A JavaScript value as seen by the handlers: the result of `JSON.parse`
plus `undefined`, which member access on a missing key produces. Numbers keep
their raw JSON token (the handlers never do arithmetic on them). -/
inductive JsValue where
  | undefined
  | null
  | bool (b : Bool)
  | num (raw : String)
  | str (s : String)
  | arr (elems : List JsValue)
  | obj (fields : List (String × JsValue))
deriving Repr

/-- JS: a numeric token denotes zero iff its mantissa (everything before any
exponent marker) has no nonzero digit. -/
def numIsZero (raw : String) : Bool :=
  let mantissa := raw.toList.takeWhile (fun c => c != 'e' && c != 'E')
  mantissa.all (fun c => !(c.isDigit && c != '0'))

/-- JS truthiness of a value. `undefined`, `null`, `false`, `0` and `""` are
falsy; every object and array is truthy. -/
def truthy : JsValue → Bool
  | .undefined => false
  | .null => false
  | .bool b => b
  | .num raw => !(numIsZero raw)
  | .str s => !(s.isEmpty)
  | .arr _ => true
  | .obj _ => true

/-- JS: a value is nullish (`undefined` or `null`); optional chaining `?.`
short-circuits on exactly these. -/
def isNullish : JsValue → Bool
  | .undefined => true
  | .null => true
  | _ => false

/-- Set field `k` of a JS object's field list to `v`: same position if the key
already exists (JS keeps the first-insertion position), appended otherwise. -/
def objSet (fs : List (String × JsValue)) (k : String) (v : JsValue) :
    List (String × JsValue) :=
  if fs.any (fun p => p.1 == k) then
    fs.map (fun p => if p.1 == k then (k, v) else p)
  else fs ++ [(k, v)]

/-- Look a key up in a JS object's field list. -/
def objFind (fs : List (String × JsValue)) (k : String) : Option JsValue :=
  (fs.find? (fun p => p.1 == k)).map (fun p => p.2)

/-- JS member access `v.k`: a TypeError on `undefined`/`null`, the field (or
`undefined`) on objects, `undefined` on other values (arrays have no named
fields the handlers read besides elements). -/
def jsGetField : JsValue → String → Except String JsValue
  | .undefined, _ => .error "TypeError"
  | .null, _ => .error "TypeError"
  | .obj fs, k => .ok ((objFind fs k).getD .undefined)
  | _, _ => .ok .undefined

/-- Total member access, defined on non-nullish values (used to state claims;
agrees with `jsGetField` there). -/
def fieldOf (v : JsValue) (k : String) : JsValue :=
  match v with
  | .obj fs => (objFind fs k).getD .undefined
  | _ => .undefined

/-- JS index access `v[0]`: a TypeError on `undefined`/`null`, the first
element (or `undefined`) on arrays, the one-character string on nonempty
strings, `undefined` otherwise. -/
def jsIndex0 : JsValue → Except String JsValue
  | .undefined => .error "TypeError"
  | .null => .error "TypeError"
  | .arr [] => .ok .undefined
  | .arr (x :: _) => .ok x
  | .str s =>
    match s.toList with
    | [] => .ok .undefined
    | c :: _ => .ok (.str (String.mk [c]))
  | _ => .ok .undefined

/-- JS strict-mode property assignment `v.k = x`: updates objects, silently
has no JSON-visible effect on arrays (the extra property is dropped by
`JSON.stringify`), and throws a TypeError on primitives and nullish values. -/
def jsSetField : JsValue → String → JsValue → Except String JsValue
  | .obj fs, k, x => .ok (.obj (objSet fs k x))
  | .arr xs, _, _ => .ok (.arr xs)
  | _, _, _ => .error "TypeError"

/-- JS property-key coercion for the keys the handlers build (`files[change.file]`). -/
def toPropKey : JsValue → String
  | .str s => s
  | .num raw => raw
  | .bool b => if b then "true" else "false"
  | .null => "null"
  | .undefined => "undefined"
  | .arr _ => ""
  | .obj _ => "[object Object]"

/-! ## A JSON parser faithful to `JSON.parse` -/

/-- JSON insignificant whitespace. -/
def isJsonWs (c : Char) : Bool := c == ' ' || c == '\t' || c == '\n' || c == '\r'

/-- Drop leading JSON whitespace. -/
def skipWs (cs : List Char) : List Char := cs.dropWhile isJsonWs

/-- Value of one hexadecimal digit (decimal, lowercase or uppercase). -/
def hexVal (c : Char) : Option Nat :=
  let n := c.toNat
  if 48 ≤ n && n ≤ 57 then some (n - 48)
  else if 97 ≤ n && n ≤ 102 then some (n - 87)
  else if 65 ≤ n && n ≤ 70 then some (n - 55)
  else none

/-- Parse the body of a JSON string after the opening quote: the decoded
characters and the rest after the closing quote. Control characters are
rejected, the escapes of RFC 8259 are decoded. -/
def parseStringBody : List Char → Option (List Char × List Char)
  | [] => none
  | '"' :: rest => some ([], rest)
  | '\\' :: esc =>
    match esc with
    | '"' :: r => (parseStringBody r).map (fun p => ('"' :: p.1, p.2))
    | '\\' :: r => (parseStringBody r).map (fun p => ('\\' :: p.1, p.2))
    | '/' :: r => (parseStringBody r).map (fun p => ('/' :: p.1, p.2))
    | 'b' :: r => (parseStringBody r).map (fun p => (Char.ofNat 8 :: p.1, p.2))
    | 'f' :: r => (parseStringBody r).map (fun p => (Char.ofNat 12 :: p.1, p.2))
    | 'n' :: r => (parseStringBody r).map (fun p => ('\n' :: p.1, p.2))
    | 'r' :: r => (parseStringBody r).map (fun p => ('\r' :: p.1, p.2))
    | 't' :: r => (parseStringBody r).map (fun p => ('\t' :: p.1, p.2))
    | 'u' :: h1 :: h2 :: h3 :: h4 :: r =>
      match hexVal h1, hexVal h2, hexVal h3, hexVal h4 with
      | some a, some b, some c, some d =>
        (parseStringBody r).map
          (fun p => (Char.ofNat ((a <<< 12) + (b <<< 8) + (c <<< 4) + d) :: p.1, p.2))
      | _, _, _, _ => none
    | _ => none
  | c :: rest =>
    if c.toNat < 32 then none
    else (parseStringBody rest).map (fun p => (c :: p.1, p.2))

/-- Parse a JSON number token starting at the head of the input; returns the
raw token and the rest. Follows the RFC 8259 grammar
(`-? (0 | [1-9][0-9]*) frac? exp?`). -/
def parseNumber (cs : List Char) : Option (String × List Char) :=
  let (sign, cs1) :=
    match cs with
    | '-' :: r => (['-'], r)
    | _ => (([] : List Char), cs)
  match cs1 with
  | '0' :: r => afterInt sign ['0'] r
  | c :: _ =>
    if c.isDigit && c != '0' then
      afterInt sign (cs1.takeWhile Char.isDigit) (cs1.dropWhile Char.isDigit)
    else none
  | [] => none
where
  /-- Continue after the integer part: optional fraction then optional exponent. -/
  afterInt (sign intPart : List Char) (r : List Char) : Option (String × List Char) :=
    match r with
    | '.' :: r2 =>
      let ds := r2.takeWhile Char.isDigit
      if ds.isEmpty then none
      else afterFrac sign (intPart ++ '.' :: ds) (r2.dropWhile Char.isDigit)
    | _ => afterFrac sign intPart r
  /-- Continue after the fraction: optional exponent. -/
  afterFrac (sign mant : List Char) (r : List Char) : Option (String × List Char) :=
    match r with
    | e :: r2 =>
      if e == 'e' || e == 'E' then
        let (es, r3) :=
          match r2 with
          | '+' :: r3 => ([e, '+'], r3)
          | '-' :: r3 => ([e, '-'], r3)
          | _ => ([e], r2)
        let ds := r3.takeWhile Char.isDigit
        if ds.isEmpty then none
        else some (String.mk (sign ++ mant ++ es ++ ds), r3.dropWhile Char.isDigit)
      else some (String.mk (sign ++ mant), r)
    | [] => some (String.mk (sign ++ mant), [])

mutual

/-- Parse one JSON value (fuelled; the callers pass enough fuel for any input
of the given length). -/
def parseValue : Nat → List Char → Option (JsValue × List Char)
  | 0, _ => none
  | fuel + 1, cs =>
    match skipWs cs with
    | 't' :: 'r' :: 'u' :: 'e' :: r => some (.bool true, r)
    | 'f' :: 'a' :: 'l' :: 's' :: 'e' :: r => some (.bool false, r)
    | 'n' :: 'u' :: 'l' :: 'l' :: r => some (.null, r)
    | '"' :: r => (parseStringBody r).map (fun p => (.str (String.mk p.1), p.2))
    | '[' :: r =>
      (match skipWs r with
       | ']' :: r2 => some (.arr [], r2)
       | r2 => (parseElems fuel r2).map (fun p => (.arr p.1, p.2)))
    | '{' :: r =>
      (match skipWs r with
       | '}' :: r2 => some (.obj [], r2)
       | r2 => (parseMembers fuel [] r2).map (fun p => (.obj p.1, p.2)))
    | cs2 => (parseNumber cs2).map (fun p => (.num p.1, p.2))

/-- Parse the elements of a nonempty JSON array, up to and including `]`. -/
def parseElems : Nat → List Char → Option (List JsValue × List Char)
  | 0, _ => none
  | fuel + 1, cs =>
    match parseValue fuel cs with
    | none => none
    | some (v, rest) =>
      match skipWs rest with
      | ',' :: r2 => (parseElems fuel r2).map (fun p => (v :: p.1, p.2))
      | ']' :: r2 => some ([v], r2)
      | _ => none

/-- Parse the members of a nonempty JSON object, up to and including the
closing brace; duplicate keys resolve last-value-wins at first position, as
in JavaScript. -/
def parseMembers : Nat → List (String × JsValue) → List Char →
    Option (List (String × JsValue) × List Char)
  | 0, _, _ => none
  | fuel + 1, acc, cs =>
    match skipWs cs with
    | '"' :: r =>
      match parseStringBody r with
      | none => none
      | some (key, r2) =>
        match skipWs r2 with
        | ':' :: r3 =>
          match parseValue fuel r3 with
          | none => none
          | some (v, r4) =>
            let acc2 := objSet acc (String.mk key) v
            match skipWs r4 with
            | ',' :: r5 => parseMembers fuel acc2 r5
            | '}' :: r5 => some (acc2, r5)
            | _ => none
        | _ => none
    | _ => none

end

/-- `JSON.parse`: parse a complete JSON text, allowing surrounding
whitespace and rejecting trailing content; `none` models the thrown
`SyntaxError`. -/
def jsonParse (s : String) : Option JsValue :=
  match parseValue (s.toList.length + 1) s.toList with
  | some (v, rest) => if (skipWs rest).isEmpty then some v else none
  | none => none

/-! ## Substring search (JS `String.prototype.includes`) -/

/-- Does `p` occur as a prefix of `s`? -/
def listStartsWith : List Char → List Char → Bool
  | [], _ => true
  | _ :: _, [] => false
  | p :: ps, c :: cs => p == c && listStartsWith ps cs

/-- Does `pat` occur anywhere in `s`? -/
def occursList (pat : List Char) : List Char → Bool
  | [] => listStartsWith pat []
  | c :: rest => listStartsWith pat (c :: rest) || occursList pat rest

/-- JS `s.includes(pat)`. -/
def occursIn (s pat : String) : Bool := occursList pat.toList s.toList

/-! ## Provider selection (the chains at ai-code-assistant lines 24-63 and
ai-project-generator lines 72-100) -/

/-- The five recognized upstream providers. -/
inductive Provider where
  | openrouter
  | openai
  | deepseek
  | gemini
  | anthropic
deriving Repr, DecidableEq

/-- The caller's optional per-provider preferred-model overrides
(`apiKeys.selectedModels`). -/
structure SelectedModels where
  openrouter : Option String
  openai : Option String
  deepseek : Option String
  gemini : Option String
  anthropic : Option String
deriving Repr, DecidableEq

/-- The caller-supplied Credential Set (`apiKeys`): per-provider secrets, each
possibly absent, plus the optional `selectedModels` object. -/
structure ApiKeys where
  openrouter : Option String
  openai : Option String
  deepseek : Option String
  gemini : Option String
  anthropic : Option String
  selectedModels : Option SelectedModels
deriving Repr, DecidableEq

/-- A Credential Set with nothing configured. -/
def emptyKeys : ApiKeys := ⟨none, none, none, none, none, none⟩

/-- A character JS `String.prototype.trim` removes. -/
def isJsWs (c : Char) : Bool :=
  c == ' ' || c == '\t' || c == '\n' || c == '\r' || c == '\x0b' || c == '\x0c'

/-- JS `s.trim()`: strip whitespace from both ends (kept executable by
explicit list recursion). -/
def jsTrim (s : String) : String :=
  String.mk (((s.toList.dropWhile isJsWs).reverse.dropWhile isJsWs).reverse)

/-- The guard `apiKeys?.X && apiKeys.X.trim()`: the entry is present, truthy,
and still truthy after trimming. -/
def configured : Option String → Bool
  | none => false
  | some s => (s != "") && (jsTrim s != "")

/-- The outcome of provider selection: the chosen provider with the endpoint
URL, the raw API key, the model identifier and the header set the source
accumulates in `apiUrl` / `apiKey` / `model` / `headers`. -/
structure ProviderChoice where
  provider : Provider
  apiUrl : String
  apiKey : String
  model : String
  headers : List (String × String)
deriving Repr, DecidableEq

/-- JS object property update on the `headers` object: overwrite in place or
append. -/
def setHeader (hs : List (String × String)) (k v : String) : List (String × String) :=
  if hs.any (fun p => p.1 == k) then
    hs.map (fun p => if p.1 == k then (k, v) else p)
  else hs ++ [(k, v)]

/-- The `headers` object both handlers start from. -/
def baseHeaders : List (String × String) := [("Content-Type", "application/json")]

/-- `apiKeys?.selectedModels?.p || default`: the override when present and
truthy, else the default (JS `||` falls back on the empty string). -/
def selModel (sel : Option SelectedModels) (f : SelectedModels → Option String)
    (dflt : String) : String :=
  match sel with
  | none => dflt
  | some sm =>
    match f sm with
    | none => dflt
    | some m => if m == "" then dflt else m

/-- The fixed part of the Gemini endpoint URL; the handler appends the raw
key after `?key=`. -/
def geminiUrlBase : String :=
  "https://generativelanguage.googleapis.com/v1beta/models/gemini-2.5-flash:generateContent?key="

/-- Provider selection of the ai-code-assistant handler (lines 24-63): the
first provider whose key is configured wins, in the fixed order openrouter,
openai, deepseek, gemini, anthropic; with none configured the handler returns
the 400 error object whose `error` field is `No API key configured`. -/
def route_assistant (keys : ApiKeys) : Except String ProviderChoice :=
  if configured keys.openrouter then
    let k := keys.openrouter.getD ""
    .ok { provider := .openrouter,
          apiUrl := "https://openrouter.ai/api/v1/chat/completions",
          apiKey := k,
          model := selModel keys.selectedModels (fun sm => sm.openrouter)
            "meta-llama/llama-3.2-3b-instruct:free",
          headers := setHeader (setHeader (setHeader baseHeaders
            "Authorization" ("Bearer " ++ k))
            "HTTP-Referer" "https://webcrafter.ai")
            "X-Title" "AI Website Builder" }
  else if configured keys.openai then
    let k := keys.openai.getD ""
    .ok { provider := .openai,
          apiUrl := "https://api.openai.com/v1/chat/completions",
          apiKey := k,
          model := selModel keys.selectedModels (fun sm => sm.openai) "gpt-5-2025-08-07",
          headers := setHeader baseHeaders "Authorization" ("Bearer " ++ k) }
  else if configured keys.deepseek then
    let k := keys.deepseek.getD ""
    .ok { provider := .deepseek,
          apiUrl := "https://api.deepseek.com/chat/completions",
          apiKey := k,
          model := "deepseek-coder",
          headers := setHeader baseHeaders "Authorization" ("Bearer " ++ k) }
  else if configured keys.gemini then
    let k := keys.gemini.getD ""
    .ok { provider := .gemini,
          apiUrl := geminiUrlBase ++ k,
          apiKey := k,
          model := "gemini-2.5-flash",
          headers := setHeader baseHeaders "Content-Type" "application/json" }
  else if configured keys.anthropic then
    let k := keys.anthropic.getD ""
    .ok { provider := .anthropic,
          apiUrl := "https://api.anthropic.com/v1/messages",
          apiKey := k,
          model := selModel keys.selectedModels (fun sm => sm.anthropic)
            "claude-3-5-haiku-20241022",
          headers := setHeader (setHeader baseHeaders
            "Authorization" ("Bearer " ++ k))
            "anthropic-version" "2023-06-01" }
  else .error "No API key configured"

/-- Provider selection of the ai-project-generator handler (lines 72-100):
same order, but every model is hardcoded, a configured Gemini key throws
`Gemini API integration coming soon`, and the no-key error message differs. -/
def route_generator (keys : ApiKeys) : Except String ProviderChoice :=
  if configured keys.openrouter then
    let k := keys.openrouter.getD ""
    .ok { provider := .openrouter,
          apiUrl := "https://openrouter.ai/api/v1/chat/completions",
          apiKey := k,
          model := "meta-llama/llama-3.2-3b-instruct:free",
          headers := setHeader (setHeader (setHeader baseHeaders
            "Authorization" ("Bearer " ++ k))
            "HTTP-Referer" "https://webcrafter.ai")
            "X-Title" "AI Website Builder" }
  else if configured keys.openai then
    let k := keys.openai.getD ""
    .ok { provider := .openai,
          apiUrl := "https://api.openai.com/v1/chat/completions",
          apiKey := k,
          model := "gpt-4o-mini",
          headers := setHeader baseHeaders "Authorization" ("Bearer " ++ k) }
  else if configured keys.deepseek then
    let k := keys.deepseek.getD ""
    .ok { provider := .deepseek,
          apiUrl := "https://api.deepseek.com/chat/completions",
          apiKey := k,
          model := "deepseek-coder",
          headers := setHeader baseHeaders "Authorization" ("Bearer " ++ k) }
  else if configured keys.gemini then
    .error "Gemini API integration coming soon"
  else if configured keys.anthropic then
    let k := keys.anthropic.getD ""
    .ok { provider := .anthropic,
          apiUrl := "https://api.anthropic.com/v1/messages",
          apiKey := k,
          model := "claude-3-haiku-20240307",
          headers := setHeader (setHeader baseHeaders
            "Authorization" ("Bearer " ++ k))
            "anthropic-version" "2023-06-01" }
  else .error "No valid API key provided. Please configure at least one API key."

/-! ## Claim-side provider-order vocabulary -/

/-- The preference order the specification states. -/
def providerOrder : List Provider :=
  [.openrouter, .openai, .deepseek, .gemini, .anthropic]

/-- The Credential Set entry for a provider. -/
def credOf (keys : ApiKeys) : Provider → Option String
  | .openrouter => keys.openrouter
  | .openai => keys.openai
  | .deepseek => keys.deepseek
  | .gemini => keys.gemini
  | .anthropic => keys.anthropic

/-- The first provider of the preference order whose credential is
configured, stated independently of the handlers' if/else chains. -/
def firstConfigured (keys : ApiKeys) : Option Provider :=
  providerOrder.find? (fun p => configured (credOf keys p))

/-! ## Request bodies (ai-code-assistant lines 79-110, ai-project-generator
lines 221-238); the dispatch in the source tests `apiUrl.includes(...)`. -/

/-- Request body of the ai-code-assistant handler, as the JSON object the
source literally builds. -/
def buildRequestBody_assistant (apiUrl model context : String) : JsValue :=
  if occursIn apiUrl "anthropic" then
    .obj [("model", .str model),
          ("max_tokens", .num "8000"),
          ("messages", .arr [.obj [("role", .str "user"), ("content", .str context)]])]
  else if occursIn apiUrl "gemini" then
    .obj [("contents", .arr [.obj [("parts", .arr [.obj [("text", .str context)]])]]),
          ("generationConfig", .obj
            [("temperature", .num "0.7"),
             ("topP", .num "0.9"),
             ("maxOutputTokens", .num "8000"),
             ("responseMimeType", .str "application/json")])]
  else
    .obj [("model", .str model),
          ("messages", .arr [.obj [("role", .str "user"), ("content", .str context)]]),
          ("max_tokens", .num "8000"),
          ("temperature", .num "0.7"),
          ("top_p", .num "0.9"),
          ("response_format", .obj [("type", .str "json_object")])]

/-- Request body of the ai-project-generator handler: only the Anthropic
shape and the OpenAI-compatible shape exist there (temperature 0.8). -/
def buildRequestBody_generator (apiUrl model systemPrompt : String) : JsValue :=
  if occursIn apiUrl "anthropic" then
    .obj [("model", .str model),
          ("max_tokens", .num "8000"),
          ("messages", .arr [.obj [("role", .str "user"), ("content", .str systemPrompt)]])]
  else
    .obj [("model", .str model),
          ("messages", .arr [.obj [("role", .str "user"), ("content", .str systemPrompt)]]),
          ("max_tokens", .num "8000"),
          ("temperature", .num "0.8"),
          ("top_p", .num "0.9"),
          ("response_format", .obj [("type", .str "json_object")])]

/-! ## Response-text extraction (ai-code-assistant lines 122-135) -/

/-- Anthropic unwrap `data.content[0]?.text`. -/
def anthropicUnwrap (data : JsValue) : Except String JsValue := do
  let c ← jsGetField data "content"
  let e ← jsIndex0 c
  if isNullish e then pure .undefined else jsGetField e "text"

/-- Gemini unwrap `data.candidates[0]?.content?.parts[0]?.text`; once the
optional chain short-circuits the rest of the chain is skipped, but
`parts[0]` itself is not guarded. -/
def geminiUnwrap (data : JsValue) : Except String JsValue := do
  let cands ← jsGetField data "candidates"
  let e ← jsIndex0 cands
  if isNullish e then pure .undefined
  else do
    let c ← jsGetField e "content"
    if isNullish c then pure .undefined
    else do
      let p ← jsGetField c "parts"
      let p0 ← jsIndex0 p
      if isNullish p0 then pure .undefined else jsGetField p0 "text"

/-- OpenAI-compatible unwrap `data.choices[0]?.message?.content`. -/
def openaiUnwrap (data : JsValue) : Except String JsValue := do
  let ch ← jsGetField data "choices"
  let e ← jsIndex0 ch
  if isNullish e then pure .undefined
  else do
    let m ← jsGetField e "message"
    if isNullish m then pure .undefined else jsGetField m "content"

/-- The assistant's `aiResponse` extraction: the unwrap path is chosen by
substring tests on `apiUrl`, exactly as in the source. -/
def extractText_assistant (apiUrl : String) (data : JsValue) : Except String JsValue :=
  if occursIn apiUrl "anthropic" then anthropicUnwrap data
  else if occursIn apiUrl "gemini" then geminiUnwrap data
  else openaiUnwrap data

/-- The `if (!aiResponse) throw new Error('No response from AI')` guard after
extraction. -/
def getAiResponse_assistant (apiUrl : String) (data : JsValue) : Except String JsValue := do
  let r ← extractText_assistant apiUrl data
  if truthy r then pure r else .error "No response from AI"

/-! ## Fenced-code-block scanning: the v2 recovery regex
matchAll with the pattern "three backticks, word characters, a newline, a
lazy body, a newline, three backticks". -/

/-- The backtick character. -/
def tickChar : Char := Char.ofNat 96

/-- Strip three leading backticks. -/
def threeTicks : List Char → Option (List Char)
  | a :: b :: c :: r =>
    if a == tickChar && b == tickChar && c == tickChar then some r else none
  | _ => none

/-- A regex word character (`[\w]` is ASCII letters, digits, underscore). -/
def isWordChar (c : Char) : Bool := c.isAlpha || c.isDigit || c == '_'

/-- Find the first "newline then three backticks" in the input: the lazy body
before it and the rest after the closing fence. -/
def findClose : List Char → Option (List Char × List Char)
  | [] => none
  | c :: rest =>
    if c == '\n' then
      match threeTicks rest with
      | some after => some ([], after)
      | none => (findClose rest).map (fun p => (c :: p.1, p.2))
    else (findClose rest).map (fun p => (c :: p.1, p.2))

/-- Scan for successive non-overlapping regex matches, resuming after each
closing fence and advancing one character past a failed opening, as the
global-flag regex engine does. -/
def scanBlocksAux : Nat → List Char → List String
  | 0, _ => []
  | _ + 1, [] => []
  | fuel + 1, c :: rest =>
    match threeTicks (c :: rest) with
    | some afterTicks =>
      (match afterTicks.dropWhile isWordChar with
       | nl :: body =>
         if nl == '\n' then
           match findClose body with
           | some (content, after) => String.mk content :: scanBlocksAux fuel after
           | none => scanBlocksAux fuel rest
         else scanBlocksAux fuel rest
       | [] => scanBlocksAux fuel rest)
    | none => scanBlocksAux fuel rest

/-- The captured bodies of all fenced code blocks of a text, in order of
appearance (`[...aiResponse.matchAll(codeBlockRegex)].map(m => m[1])`). -/
def codeBlocks (s : String) : List String :=
  scanBlocksAux (s.toList.length + 1) s.toList

/-! ## The three normalize variants -/

/-- `aiResponse.substring(0, 500) + (aiResponse.length > 500 ? '...' : '')`. -/
def truncate500 (s : String) : String :=
  (s.take 500) ++ (if s.length > 500 then "..." else "")

/-- The synthesized `files` mapping of the recovery path: the n-th block body
under `generated-file-<n>.tsx` (1-based). -/
def genFiles (blocks : List String) : List (String × JsValue) :=
  blocks.enum.map (fun p => ("generated-file-" ++ toString (p.1 + 1) ++ ".tsx", .str p.2))

/-- The v2 catch block: extract fenced code blocks, else fall back to the
truncated raw text (ai-project-generator file, lines 492-521). -/
def recover (aiResponse : String) : JsValue :=
  let ms := codeBlocks aiResponse
  if ms.length > 0 then
    .obj [("analysis", .str "Extracted code from AI response"),
          ("files", .obj (genFiles ms)),
          ("summary", .str "Generated code files from AI response"),
          ("response", .str "Code extracted and applied successfully.")]
  else
    .obj [("analysis", .str "AI response could not be parsed"),
          ("response", .str (truncate500 aiResponse)),
          ("files", .obj []),
          ("summary", .str "Response processed but no code changes identified")]

/-- The `codeChanges.forEach` body iterated over the array: builds the
`files` object entry by entry; member access on a nullish element throws. -/
def convertChangesAuxE : List JsValue → List (String × JsValue) →
    Except String (List (String × JsValue))
  | [], acc => .ok acc
  | it :: its, acc => do
    let f ← jsGetField it "file"
    let c ← jsGetField it "content"
    if truthy f && truthy c then convertChangesAuxE its (objSet acc (toPropKey f) c)
    else convertChangesAuxE its acc

/-- The `codeChanges.forEach` translation building the `files` object. -/
def convertChangesE (items : List JsValue) : Except String (List (String × JsValue)) :=
  convertChangesAuxE items []

/-- Claim-side total iteration of the translation, defined on lists without
nullish elements: each pair with truthy `file` and truthy `content`
contributes `files[file] = content`, in array order. -/
def convertChangesAux : List JsValue → List (String × JsValue) → List (String × JsValue)
  | [], acc => acc
  | it :: its, acc =>
    let f := fieldOf it "file"
    let c := fieldOf it "content"
    if truthy f && truthy c then convertChangesAux its (objSet acc (toPropKey f) c)
    else convertChangesAux its acc

/-- Claim-side total version of the `codeChanges` translation. -/
def convertChanges (items : List JsValue) : List (String × JsValue) :=
  convertChangesAux items []

/-- The v2 try-block body after a successful parse: legacy `codeChanges`
translation, then the default `response` field (ai-project-generator file,
lines 470-491). Errors model thrown TypeErrors, which the catch turns into
the recovery path. -/
def tryShape (v : JsValue) : Except String JsValue := do
  let files0 ← jsGetField v "files"
  let v1 ←
    if truthy files0 then pure v
    else do
      let cc ← jsGetField v "codeChanges"
      if truthy cc then
        match cc with
        | .arr items => do
          let fs ← convertChangesE items
          jsSetField v "files" (.obj fs)
        | _ => .error "TypeError"
      else pure v
  let r ← jsGetField v1 "response"
  if truthy r then pure v1
  else do
    let a ← jsGetField v1 "analysis"
    if truthy a then pure v1
    else jsSetField v1 "response" (.str "Changes have been applied successfully.")

/-- normalize of the ai-code-assistant handler (lines 137-147): parse, with a
fixed fallback object on parse failure. Total - parse failure never escapes. -/
def normalize_assistant (aiResponse : String) : JsValue :=
  match jsonParse aiResponse with
  | some v => v
  | none =>
    .obj [("response", .str "Changes applied. Unable to parse full response."),
          ("codeChanges", .arr [])]

/-- normalize of the ai-project-generator handler (lines 263-269): parse
failure is rethrown as `Failed to parse AI response`. -/
def normalize_generator (aiResponse : String) : Except String JsValue :=
  match jsonParse aiResponse with
  | some v => .ok v
  | none => .error "Failed to parse AI response"

/-- normalize of the v2 assistant variant (ai-project-generator file, lines
470-521): parse and shape, any exception inside the try block falling into
the code-block recovery. Total. -/
def normalize_v2 (aiResponse : String) : JsValue :=
  match jsonParse aiResponse with
  | none => recover aiResponse
  | some v =>
    match tryShape v with
    | .ok r => r
    | .error _ => recover aiResponse

/-! ## Claim-side observation vocabulary -/

/-- Look a key up in a result value (claim-side). -/
def objLookup (v : JsValue) (k : String) : Option JsValue :=
  match v with
  | .obj fs => objFind fs k
  | _ => none

/-- Two-level lookup. -/
def objLookup2 (v : JsValue) (k1 k2 : String) : Option JsValue :=
  match objLookup v k1 with
  | some w => objLookup w k2
  | none => none

/-- A key is present. -/
def hasKey (v : JsValue) (k : String) : Bool := (objLookup v k).isSome

/-- An optional value is an array. -/
def isArrVal : Option JsValue → Bool
  | some (.arr _) => true
  | _ => false

/-- An optional value is the given string. -/
def isStrVal (o : Option JsValue) (s : String) : Bool :=
  match o with
  | some (.str t) => t == s
  | _ => false

/-- An optional value is the number with the given raw token. -/
def isNumVal (o : Option JsValue) (raw : String) : Bool :=
  match o with
  | some (.num r) => r == raw
  | _ => false

/-- The provider-specific request-body schema the specification demands:
Anthropic-shaped, Gemini-shaped or OpenAI-compatible. -/
def matchesSchema : Provider → JsValue → Bool
  | .anthropic, b =>
    hasKey b "model" && hasKey b "max_tokens" && isArrVal (objLookup b "messages")
  | .gemini, b =>
    isArrVal (objLookup b "contents") &&
    (objLookup2 b "generationConfig" "maxOutputTokens").isSome &&
    isStrVal (objLookup2 b "generationConfig" "responseMimeType") "application/json"
  | _, b =>
    hasKey b "model" && isArrVal (objLookup b "messages") && hasKey b "max_tokens" &&
    hasKey b "temperature" && hasKey b "top_p" &&
    isStrVal (objLookup2 b "response_format" "type") "json_object"

/-- The output-token upper bound of a request body: `max_tokens`, or
`generationConfig.maxOutputTokens` for the Gemini shape. -/
def outTokenBound (b : JsValue) : Option JsValue :=
  match objLookup b "max_tokens" with
  | some v => some v
  | none => objLookup2 b "generationConfig" "maxOutputTokens"

/-- The preferred-model override for a provider
(`apiKeys.selectedModels.<provider>`). -/
def overrideOf (keys : ApiKeys) : Provider → Option String
  | .openrouter => keys.selectedModels.bind (fun sm => sm.openrouter)
  | .openai => keys.selectedModels.bind (fun sm => sm.openai)
  | .deepseek => keys.selectedModels.bind (fun sm => sm.deepseek)
  | .gemini => keys.selectedModels.bind (fun sm => sm.gemini)
  | .anthropic => keys.selectedModels.bind (fun sm => sm.anthropic)

/-- The assistant handler's default model per provider. -/
def defaultModel_assistant : Provider → String
  | .openrouter => "meta-llama/llama-3.2-3b-instruct:free"
  | .openai => "gpt-5-2025-08-07"
  | .deepseek => "deepseek-coder"
  | .gemini => "gemini-2.5-flash"
  | .anthropic => "claude-3-5-haiku-20241022"

/-- The generator handler's (always hardcoded) model per provider; Gemini
never reaches model assignment there. -/
def defaultModel_generator : Provider → String
  | .openrouter => "meta-llama/llama-3.2-3b-instruct:free"
  | .openai => "gpt-4o-mini"
  | .deepseek => "deepseek-coder"
  | .gemini => ""
  | .anthropic => "claude-3-haiku-20240307"

/-- The model the assistant handler actually uses: the override only for
openrouter, openai and anthropic, the hardcoded default otherwise (and when
the override is absent or empty). -/
def modelUsed_assistant (keys : ApiKeys) (p : Provider) : String :=
  match p with
  | .openrouter | .openai | .anthropic =>
    match overrideOf keys p with
    | some m => if m == "" then defaultModel_assistant p else m
    | none => defaultModel_assistant p
  | _ => defaultModel_assistant p

/-- The fixed endpoint URL of each provider with a credential-independent
endpoint (all but Gemini, whose URL embeds the key). -/
def fixedUrl : Provider → String
  | .openrouter => "https://openrouter.ai/api/v1/chat/completions"
  | .openai => "https://api.openai.com/v1/chat/completions"
  | .deepseek => "https://api.deepseek.com/chat/completions"
  | .gemini => ""
  | .anthropic => "https://api.anthropic.com/v1/messages"

/-- Header lookup (claim-side). -/
def headerLookup (hs : List (String × String)) (k : String) : Option String :=
  (hs.find? (fun p => p.1 == k)).map (fun p => p.2)

/-! ## Helper lemmas -/

/-- A configured credential stays non-blank after trimming. -/
theorem configured_getD_trim (o : Option String) (h : configured o = true) :
    jsTrim (o.getD "") ≠ "" := by
  cases o with
  | none => simp [configured] at h
  | some s =>
    simp [configured, bne_iff_ne] at h
    simpa using h.2

/-- A configured credential is present. -/
theorem configured_some (o : Option String) (h : configured o = true) :
    o = some (o.getD "") := by
  cases o with
  | none => simp [configured] at h
  | some s => rfl

/-- The claim-side `find?` over the preference order agrees with the
if/else chain shape. -/
theorem firstConfigured_eq (keys : ApiKeys) :
    firstConfigured keys =
      (if configured keys.openrouter then some .openrouter
       else if configured keys.openai then some .openai
       else if configured keys.deepseek then some .deepseek
       else if configured keys.gemini then some .gemini
       else if configured keys.anthropic then some .anthropic
       else none) := by
  simp only [firstConfigured, providerOrder, List.find?, credOf]
  by_cases h1 : configured keys.openrouter <;>
  by_cases h2 : configured keys.openai <;>
  by_cases h3 : configured keys.deepseek <;>
  by_cases h4 : configured keys.gemini <;>
  by_cases h5 : configured keys.anthropic <;>
  simp_all

/-- A prefix of a list is a prefix of any extension. -/
theorem listStartsWith_append (p s t : List Char) (h : listStartsWith p s = true) :
    listStartsWith p (s ++ t) = true := by
  induction p generalizing s with
  | nil => simp [listStartsWith]
  | cons a ps ih =>
    cases s with
    | nil => simp [listStartsWith] at h
    | cons c cs =>
      simp only [listStartsWith, Bool.and_eq_true] at h
      simpa [listStartsWith, h.1] using ih cs h.2

/-- An occurrence in the left part survives appending on the right. -/
theorem occursList_append_left (pat a b : List Char) (h : occursList pat a = true) :
    occursList pat (a ++ b) = true := by
  induction a with
  | nil =>
    cases pat with
    | nil =>
      cases b with
      | nil => simpa [occursList] using h
      | cons c cs => simp [occursList, listStartsWith]
    | cons p ps => simp [occursList, listStartsWith] at h
  | cons c cs ih =>
    simp only [occursList, Bool.or_eq_true] at h
    rcases h with h | h
    · simpa [occursList] using Or.inl (listStartsWith_append _ _ b h)
    · simpa [occursList] using Or.inr (ih h)

/-- String concatenation concatenates the character lists. -/
theorem toList_append (a b : String) : (a ++ b).toList = a.toList ++ b.toList := by
  cases a; cases b; rfl

/-- `occursIn` is monotone under appending on the right. -/
theorem occursIn_append_left (a b pat : String) (h : occursIn a pat = true) :
    occursIn (a ++ b) pat = true := by
  simpa [occursIn, toList_append] using occursList_append_left pat.toList a.toList b.toList h


/-- Overwriting key `k` in place does not change lookups of other keys. -/
theorem objFind_mapSet_ne (fs : List (String × JsValue)) (k k' : String) (v : JsValue)
    (h : (k == k') = false) :
    objFind (fs.map (fun p => if p.1 == k then (k, v) else p)) k' = objFind fs k' := by
  induction fs with
  | nil => rfl
  | cons p ps ih =>
    by_cases hp : (p.1 == k) = true
    · have hpk : (p.1 == k') = false := by
        have hk : p.1 = k := by simpa using hp
        simpa [hk] using h
      simp only [List.map_cons, hp, if_true, objFind, List.find?] at ih ⊢
      simp only [h, hpk]
      exact ih
    · have hp' : (p.1 == k) = false := by simpa using hp
      simp only [List.map_cons, hp', if_false, Bool.false_eq_true, objFind, List.find?] at ih ⊢
      by_cases hq : (p.1 == k') = true
      · simp [hq]
      · have hq' : (p.1 == k') = false := by simpa using hq
        simp only [hq']
        exact ih

/-- Overwriting key `k` in place makes its lookup the new value, provided the
key occurs. -/
theorem objFind_mapSet_self (fs : List (String × JsValue)) (k : String) (v : JsValue)
    (h : (fs.any fun p => p.1 == k) = true) :
    objFind (fs.map (fun p => if p.1 == k then (k, v) else p)) k = some v := by
  induction fs with
  | nil => simp at h
  | cons p ps ih =>
    by_cases hp : (p.1 == k) = true
    · simp only [List.map_cons, hp, if_true, objFind, List.find?]
      simp
    · have hp' : (p.1 == k) = false := by simpa using hp
      simp only [List.any_cons, hp', Bool.false_or] at h
      simp only [List.map_cons, hp', if_false, Bool.false_eq_true, objFind, List.find?, hp']
      exact ih h

/-- Updating one key leaves the lookup of a different key unchanged. -/
theorem objFind_objSet_ne (fs : List (String × JsValue)) (k k' : String) (v : JsValue)
    (h : k ≠ k') : objFind (objSet fs k v) k' = objFind fs k' := by
  have hb : (k == k') = false := by simpa using h
  unfold objSet
  split
  · exact objFind_mapSet_ne fs k k' v hb
  · simp only [objFind]
    rw [List.find?_append]
    have hnone : List.find? (fun p => p.1 == k') [(k, v)] = none := by
      simp [List.find?, hb]
    simp [hnone]

/-- Updating a key makes its lookup the new value. -/
theorem objFind_objSet_self (fs : List (String × JsValue)) (k : String) (v : JsValue) :
    objFind (objSet fs k v) k = some v := by
  unfold objSet
  split
  case isTrue hany => exact objFind_mapSet_self fs k v hany
  case isFalse hany =>
    simp only [objFind]
    rw [List.find?_append]
    have hnone : List.find? (fun p => p.1 == k) fs = none := by
      rw [List.find?_eq_none]
      intro p hp hk
      exact hany (List.any_eq_true.mpr ⟨p, hp, hk⟩)
    simp [hnone, List.find?]

/-- `selModel` restated through the claim-side override. -/
theorem selModel_eq (sel : Option SelectedModels) (f : SelectedModels → Option String)
    (d : String) :
    selModel sel f d =
      (match sel.bind f with
       | some m => if m == "" then d else m
       | none => d) := by
  cases sel with
  | none => rfl
  | some sm => cases h : f sm <;> simp [selModel, Option.bind, h]



/-! ## Concrete Credential Sets used by witnesses and counterexamples -/

/-- Only an OpenAI key. -/
def openaiOnlyKeys : ApiKeys := ⟨none, some "sk-x", none, none, none, none⟩

/-- Only a Gemini key. -/
def geminiOnlyKeys : ApiKeys := ⟨none, none, none, some "gemini-key", none, none⟩

/-- Gemini and Anthropic keys (Gemini first in preference order). -/
def geminiAnthropicKeys : ApiKeys :=
  ⟨none, none, none, some "gemini-key", some "anth-key", none⟩

/-- A DeepSeek key together with a DeepSeek preferred-model override. -/
def deepseekSelKeys : ApiKeys :=
  ⟨none, none, some "dk", none, none, some ⟨none, none, some "custom-model", none, none⟩⟩

/-- The choice the assistant handler produces for `deepseekSelKeys`. -/
def deepseekChoice : ProviderChoice :=
  { provider := .deepseek,
    apiUrl := "https://api.deepseek.com/chat/completions",
    apiKey := "dk",
    model := "deepseek-coder",
    headers := [("Content-Type", "application/json"), ("Authorization", "Bearer dk")] }

/-- A Gemini key whose text happens to contain the substring `anthropic`. -/
def geminiTrickKeys : ApiKeys := ⟨none, none, none, some "anthropic", none, none⟩

/-- The choice the assistant handler produces for `geminiTrickKeys`. -/
def geminiTrickChoice : ProviderChoice :=
  { provider := .gemini,
    apiUrl := geminiUrlBase ++ "anthropic",
    apiKey := "anthropic",
    model := "gemini-2.5-flash",
    headers := [("Content-Type", "application/json")] }

/-- A Gemini-shaped upstream response carrying the text `hello`. -/
def geminiHelloData : JsValue :=
  .obj [("candidates", .arr
    [.obj [("content", .obj [("parts", .arr [.obj [("text", .str "hello")]])])]])]

/-- Claim C1 (amended): in the code-assistant path, `route` selects exactly
the first configured provider in the order openrouter, openai, deepseek,
gemini, anthropic and its credential is non-blank, with all-blank sets
yielding the `No API key configured` error; the project-generator path does
the same except that a first-configured Gemini fails with `Gemini API
integration coming soon` instead of being selected, and its all-blank error
message is `No valid API key provided. Please configure at least one API
key.`. -/
theorem c1_route_selection (keys : ApiKeys) :
    (∀ c, route_assistant keys = .ok c →
        firstConfigured keys = some c.provider ∧
        configured (credOf keys c.provider) = true ∧
        c.apiKey = (credOf keys c.provider).getD "" ∧
        jsTrim c.apiKey ≠ "") ∧
    (firstConfigured keys = none →
        route_assistant keys = .error "No API key configured" ∧
        route_generator keys =
          .error "No valid API key provided. Please configure at least one API key.") ∧
    (∀ p, firstConfigured keys = some p →
        ∃ c, route_assistant keys = .ok c ∧ c.provider = p) ∧
    (∀ p, firstConfigured keys = some p → p ≠ .gemini →
        ∃ c, route_generator keys = .ok c ∧ c.provider = p ∧ jsTrim c.apiKey ≠ "") ∧
    (firstConfigured keys = some .gemini →
        route_generator keys = .error "Gemini API integration coming soon") := by
  rw [firstConfigured_eq]
  by_cases h1 : configured keys.openrouter <;>
  by_cases h2 : configured keys.openai <;>
  by_cases h3 : configured keys.deepseek <;>
  by_cases h4 : configured keys.gemini <;>
  by_cases h5 : configured keys.anthropic <;>
  simp_all [route_assistant, route_generator, credOf, configured_getD_trim]

/-- Witness for C1: with only an OpenAI key the assistant route selects
openai, and with only a Gemini key the generator route fails fast. -/
theorem c1_witness :
    (∃ c, route_assistant openaiOnlyKeys = .ok c ∧ c.provider = .openai) ∧
    route_generator geminiOnlyKeys = .error "Gemini API integration coming soon" :=
  ⟨(c1_route_selection openaiOnlyKeys).2.2.1 .openai (by rfl),
   (c1_route_selection geminiOnlyKeys).2.2.2.2 (by rfl)⟩

/-- Counterexample for C1 as stated: `geminiAnthropicKeys` has configured
providers (Gemini first, Anthropic after it), yet the project-generator route
selects nothing - it throws - and the all-blank generator message is not
`No API key configured`. -/
theorem c1_counterexample :
    configured geminiAnthropicKeys.gemini = true ∧
    configured geminiAnthropicKeys.anthropic = true ∧
    route_generator geminiAnthropicKeys = .error "Gemini API integration coming soon" ∧
    route_generator emptyKeys ≠ .error "No API key configured" := by
  refine ⟨rfl, rfl, rfl, ?_⟩
  rw [show route_generator emptyKeys =
    Except.error "No valid API key provided. Please configure at least one API key." from rfl]
  simp only [ne_eq, Except.error.injEq]
  decide

/-- Claim C8 (amended): the assistant path honours the preferred-model
override only for openrouter, openai and anthropic (an absent or empty
override falls back to the default); deepseek and gemini are hardcoded
there, and the generator path hardcodes every model. -/
theorem c8_model_choice (keys : ApiKeys) :
    (∀ c, route_assistant keys = .ok c → c.model = modelUsed_assistant keys c.provider) ∧
    (∀ c, route_generator keys = .ok c → c.model = defaultModel_generator c.provider) := by
  constructor <;> intro c h <;>
  by_cases h1 : configured keys.openrouter <;>
  by_cases h2 : configured keys.openai <;>
  by_cases h3 : configured keys.deepseek <;>
  by_cases h4 : configured keys.gemini <;>
  by_cases h5 : configured keys.anthropic <;>
  simp [route_assistant, route_generator, h1, h2, h3, h4, h5] at h <;>
  try subst h
  all_goals
    simp [modelUsed_assistant, overrideOf, selModel_eq, defaultModel_assistant,
      defaultModel_generator]

/-- Witness for C8: the deepseek choice of `deepseekSelKeys` uses the
hardcoded model, as `modelUsed_assistant` states. -/
theorem c8_witness : deepseekChoice.model = modelUsed_assistant deepseekSelKeys deepseekChoice.provider :=
  (c8_model_choice deepseekSelKeys).1 deepseekChoice (by rfl)

/-- Counterexample for C8 as stated: a caller-supplied deepseek override is
ignored by the assistant handler. -/
theorem c8_counterexample :
    overrideOf deepseekSelKeys .deepseek = some "custom-model" ∧
    route_assistant deepseekSelKeys = .ok deepseekChoice ∧
    deepseekChoice.model ≠ "custom-model" := by
  refine ⟨rfl, rfl, ?_⟩
  rw [show deepseekChoice.model = "deepseek-coder" from rfl]
  decide



/-- Claim C9: with openrouter, openai and deepseek unconfigured and Gemini
configured, the project-generator route fails fast with `Gemini API
integration coming soon` regardless of whether Anthropic is configured,
while the code-assistant route selects Gemini as a first-class provider. -/
theorem c9_gemini_split (keys : ApiKeys)
    (h1 : configured keys.openrouter = false)
    (h2 : configured keys.openai = false)
    (h3 : configured keys.deepseek = false)
    (h4 : configured keys.gemini = true) :
    route_generator keys = .error "Gemini API integration coming soon" ∧
    ∃ c, route_assistant keys = .ok c ∧ c.provider = .gemini ∧
      c.apiUrl = geminiUrlBase ++ (keys.gemini.getD "") := by
  refine ⟨by simp [route_generator, h1, h2, h3, h4], ?_⟩
  refine ⟨{ provider := .gemini,
            apiUrl := geminiUrlBase ++ (keys.gemini.getD ""),
            apiKey := keys.gemini.getD "",
            model := "gemini-2.5-flash",
            headers := setHeader baseHeaders "Content-Type" "application/json" },
          ?_, rfl, rfl⟩
  simp [route_assistant, h1, h2, h3, h4]

/-- Witness for C9 at the concrete Credential Set with Gemini and Anthropic
keys. -/
theorem c9_witness :
    route_generator geminiAnthropicKeys = .error "Gemini API integration coming soon" :=
  (c9_gemini_split geminiAnthropicKeys rfl rfl rfl rfl).1

/-- Claim C10: a Gemini selection embeds the key as the `?key=` URL suffix
and sends no Authorization header; every other selection carries
`Authorization: Bearer <untrimmed key>` and a fixed, credential-independent
endpoint URL. -/
theorem c10_auth_placement (keys : ApiKeys) :
    ∀ c, route_assistant keys = .ok c →
      (c.provider = .gemini →
        headerLookup c.headers "Authorization" = none ∧
        c.apiUrl = geminiUrlBase ++ (keys.gemini.getD "") ∧
        c.apiKey = keys.gemini.getD "") ∧
      (c.provider ≠ .gemini →
        headerLookup c.headers "Authorization" = some ("Bearer " ++ c.apiKey) ∧
        c.apiUrl = fixedUrl c.provider ∧
        c.apiKey = (credOf keys c.provider).getD "") := by
  intro c h
  by_cases h1 : configured keys.openrouter <;>
  by_cases h2 : configured keys.openai <;>
  by_cases h3 : configured keys.deepseek <;>
  by_cases h4 : configured keys.gemini <;>
  by_cases h5 : configured keys.anthropic <;>
  simp [route_assistant, h1, h2, h3, h4, h5] at h <;>
  try subst h
  all_goals
    simp [headerLookup, setHeader, baseHeaders, fixedUrl, credOf, List.find?]

/-- Witness for C10 at the Gemini-only Credential Set. -/
theorem c10_witness :
    headerLookup
      { provider := .gemini,
        apiUrl := geminiUrlBase ++ "gemini-key",
        apiKey := "gemini-key",
        model := "gemini-2.5-flash",
        headers := [("Content-Type", "application/json")] : ProviderChoice }.headers
      "Authorization" = none :=
  (((c10_auth_placement geminiOnlyKeys) _ rfl).1 rfl).1



/-- Shape of every successful assistant selection: the provider determines
the endpoint URL (Gemini's embeds the raw key). -/
theorem route_assistant_shape (keys : ApiKeys) (c : ProviderChoice)
    (h : route_assistant keys = .ok c) :
    (c.provider = .openrouter ∧ c.apiUrl = "https://openrouter.ai/api/v1/chat/completions") ∨
    (c.provider = .openai ∧ c.apiUrl = "https://api.openai.com/v1/chat/completions") ∨
    (c.provider = .deepseek ∧ c.apiUrl = "https://api.deepseek.com/chat/completions") ∨
    (c.provider = .gemini ∧ c.apiUrl = geminiUrlBase ++ (keys.gemini.getD "")) ∨
    (c.provider = .anthropic ∧ c.apiUrl = "https://api.anthropic.com/v1/messages") := by
  by_cases h1 : configured keys.openrouter <;>
  by_cases h2 : configured keys.openai <;>
  by_cases h3 : configured keys.deepseek <;>
  by_cases h4 : configured keys.gemini <;>
  by_cases h5 : configured keys.anthropic <;>
  simp [route_assistant, h1, h2, h3, h4, h5] at h <;>
  subst h <;> simp

/-- At the OpenRouter endpoint the assistant unwraps along the
OpenAI-compatible path. -/
theorem extract_at_openrouter (d : JsValue) :
    extractText_assistant "https://openrouter.ai/api/v1/chat/completions" d =
      openaiUnwrap d := by
  simp only [extractText_assistant]
  rw [show occursIn "https://openrouter.ai/api/v1/chat/completions" "anthropic" = false from
    by decide]
  rw [show occursIn "https://openrouter.ai/api/v1/chat/completions" "gemini" = false from
    by decide]
  simp

/-- At the OpenAI endpoint the assistant unwraps along the OpenAI-compatible
path. -/
theorem extract_at_openai (d : JsValue) :
    extractText_assistant "https://api.openai.com/v1/chat/completions" d =
      openaiUnwrap d := by
  simp only [extractText_assistant]
  rw [show occursIn "https://api.openai.com/v1/chat/completions" "anthropic" = false from
    by decide]
  rw [show occursIn "https://api.openai.com/v1/chat/completions" "gemini" = false from
    by decide]
  simp

/-- At the DeepSeek endpoint the assistant unwraps along the
OpenAI-compatible path. -/
theorem extract_at_deepseek (d : JsValue) :
    extractText_assistant "https://api.deepseek.com/chat/completions" d =
      openaiUnwrap d := by
  simp only [extractText_assistant]
  rw [show occursIn "https://api.deepseek.com/chat/completions" "anthropic" = false from
    by decide]
  rw [show occursIn "https://api.deepseek.com/chat/completions" "gemini" = false from
    by decide]
  simp

/-- At the Anthropic endpoint the assistant unwraps along the Anthropic
path. -/
theorem extract_at_anthropic (d : JsValue) :
    extractText_assistant "https://api.anthropic.com/v1/messages" d =
      anthropicUnwrap d := by
  simp only [extractText_assistant]
  rw [show occursIn "https://api.anthropic.com/v1/messages" "anthropic" = true from
    by decide]
  simp

/-- At a Gemini endpoint whose full URL avoids the substring `anthropic`,
the assistant unwraps along the Gemini path. -/
theorem extract_at_gemini (k : String) (d : JsValue)
    (h : occursIn (geminiUrlBase ++ k) "anthropic" = false) :
    extractText_assistant (geminiUrlBase ++ k) d = geminiUnwrap d := by
  simp only [extractText_assistant, h]
  rw [show occursIn (geminiUrlBase ++ k) "gemini" = true from
    occursIn_append_left geminiUrlBase k "gemini" (by decide)]
  simp

/-- The unwrap path the specification assigns to each provider. -/
def unwrapOf : Provider → JsValue → Except String JsValue
  | .anthropic => anthropicUnwrap
  | .gemini => geminiUnwrap
  | _ => openaiUnwrap

/-- Claim C6 (amended): extraction follows the URL-substring dispatch; for
every selected provider it is that provider's own unwrap path, for Gemini
under the proviso that the URL (which embeds the raw key) does not contain
`anthropic`; and an unwrap that succeeds with an absent or empty text makes
the request fail with `No response from AI` instead of reaching normalize. -/
theorem c6_extract_paths (keys : ApiKeys) :
    (∀ c, route_assistant keys = .ok c →
      (c.provider = .gemini → occursIn c.apiUrl "anthropic" = false) →
      ∀ d, extractText_assistant c.apiUrl d = unwrapOf c.provider d) ∧
    (∀ url d v, extractText_assistant url d = .ok v →
      (v = .undefined ∨ v = .null ∨ v = .str "") →
      getAiResponse_assistant url d = .error "No response from AI") := by
  constructor
  · intro c h hg d
    rcases route_assistant_shape keys c h with hs | hs | hs | hs | hs <;>
      obtain ⟨hp, hu⟩ := hs
    · rw [hp, hu]; exact extract_at_openrouter d
    · rw [hp, hu]; exact extract_at_openai d
    · rw [hp, hu]; exact extract_at_deepseek d
    · have hga : occursIn c.apiUrl "anthropic" = false := hg hp
      rw [hu] at hga
      rw [hp, hu]; exact extract_at_gemini _ d hga
    · rw [hp, hu]; exact extract_at_anthropic d
  · intro url d v h hv
    simp only [getAiResponse_assistant, h]
    rcases hv with rfl | rfl | rfl <;> rfl

/-- Witness for C6 at the Gemini-only Credential Set and an empty Anthropic
envelope: the unwrap yields `undefined`, so the guard fails the request. -/
theorem c6_witness :
    getAiResponse_assistant "https://api.anthropic.com/v1/messages"
      (.obj [("content", .arr [.obj []])]) = .error "No response from AI" :=
  (c6_extract_paths emptyKeys).2 "https://api.anthropic.com/v1/messages"
    (.obj [("content", .arr [.obj []])]) .undefined rfl (Or.inl rfl)

/-- Counterexample for C6 as stated: with the Gemini key `anthropic` the
selected provider is Gemini, yet extraction follows the Anthropic path - a
well-formed Gemini envelope is not unwrapped (the access throws) even though
the Gemini path would have produced its text. -/
theorem c6_counterexample :
    route_assistant geminiTrickKeys = .ok geminiTrickChoice ∧
    geminiUnwrap geminiHelloData = .ok (.str "hello") ∧
    extractText_assistant geminiTrickChoice.apiUrl geminiHelloData = .error "TypeError" := by
  refine ⟨by rfl, by rfl, ?_⟩
  rw [show geminiTrickChoice.apiUrl = geminiUrlBase ++ "anthropic" from rfl]
  rw [show (geminiUrlBase ++ "anthropic" : String) =
    "https://generativelanguage.googleapis.com/v1beta/models/gemini-2.5-flash:generateContent?key=anthropic"
    from rfl]
  simp only [extractText_assistant]
  rw [show occursIn
    "https://generativelanguage.googleapis.com/v1beta/models/gemini-2.5-flash:generateContent?key=anthropic"
    "anthropic" = true from by decide]
  rfl



/-- Shape of every successful generator selection: four providers, all with
fixed endpoint URLs. -/
theorem route_generator_shape (keys : ApiKeys) (c : ProviderChoice)
    (h : route_generator keys = .ok c) :
    (c.provider = .openrouter ∧ c.apiUrl = "https://openrouter.ai/api/v1/chat/completions") ∨
    (c.provider = .openai ∧ c.apiUrl = "https://api.openai.com/v1/chat/completions") ∨
    (c.provider = .deepseek ∧ c.apiUrl = "https://api.deepseek.com/chat/completions") ∨
    (c.provider = .anthropic ∧ c.apiUrl = "https://api.anthropic.com/v1/messages") := by
  by_cases h1 : configured keys.openrouter <;>
  by_cases h2 : configured keys.openai <;>
  by_cases h3 : configured keys.deepseek <;>
  by_cases h4 : configured keys.gemini <;>
  by_cases h5 : configured keys.anthropic <;>
  simp [route_generator, h1, h2, h3, h4, h5] at h <;>
  subst h <;> simp

/-- Every assistant request body carries the 8000 output-token bound,
whatever the URL dispatch decides. -/
theorem tokenBound_assistant (url model ctx : String) :
    isNumVal (outTokenBound (buildRequestBody_assistant url model ctx)) "8000" = true := by
  unfold buildRequestBody_assistant
  by_cases h1 : occursIn url "anthropic" <;> by_cases h2 : occursIn url "gemini" <;>
    simp [h1, h2, outTokenBound, objLookup, objLookup2, objFind, List.find?, isNumVal]

/-- Every generator request body carries the 8000 output-token bound. -/
theorem tokenBound_generator (url model ctx : String) :
    isNumVal (outTokenBound (buildRequestBody_generator url model ctx)) "8000" = true := by
  unfold buildRequestBody_generator
  by_cases h1 : occursIn url "anthropic" <;>
    simp [h1, outTokenBound, objLookup, objLookup2, objFind, List.find?, isNumVal]

/-- The assistant body at a URL matching neither `anthropic` nor `gemini`
satisfies the OpenAI-compatible schema. -/
theorem schema_assistant_openaiLike (p : Provider) (url model ctx : String)
    (hp : p = .openrouter ∨ p = .openai ∨ p = .deepseek)
    (ha : occursIn url "anthropic" = false) (hg : occursIn url "gemini" = false) :
    matchesSchema p (buildRequestBody_assistant url model ctx) = true := by
  rcases hp with rfl | rfl | rfl <;>
  simp [buildRequestBody_assistant, ha, hg, matchesSchema, hasKey, objLookup, objLookup2,
    objFind, List.find?, isArrVal, isStrVal]

/-- The assistant body at a URL matching `anthropic` satisfies the
Anthropic schema. -/
theorem schema_assistant_anthropic (url model ctx : String)
    (ha : occursIn url "anthropic" = true) :
    matchesSchema .anthropic (buildRequestBody_assistant url model ctx) = true := by
  simp [buildRequestBody_assistant, ha, matchesSchema, hasKey, objLookup, objLookup2,
    objFind, List.find?, isArrVal, isStrVal]

/-- The assistant body at a URL matching `gemini` but not `anthropic`
satisfies the Gemini schema. -/
theorem schema_assistant_gemini (url model ctx : String)
    (ha : occursIn url "anthropic" = false) (hg : occursIn url "gemini" = true) :
    matchesSchema .gemini (buildRequestBody_assistant url model ctx) = true := by
  simp [buildRequestBody_assistant, ha, hg, matchesSchema, hasKey, objLookup, objLookup2,
    objFind, List.find?, isArrVal, isStrVal]

/-- The generator body at a URL not matching `anthropic` satisfies the
OpenAI-compatible schema. -/
theorem schema_generator_openaiLike (p : Provider) (url model ctx : String)
    (hp : p = .openrouter ∨ p = .openai ∨ p = .deepseek)
    (ha : occursIn url "anthropic" = false) :
    matchesSchema p (buildRequestBody_generator url model ctx) = true := by
  rcases hp with rfl | rfl | rfl <;>
  simp [buildRequestBody_generator, ha, matchesSchema, hasKey, objLookup, objLookup2,
    objFind, List.find?, isArrVal, isStrVal]

/-- The generator body at a URL matching `anthropic` satisfies the Anthropic
schema. -/
theorem schema_generator_anthropic (url model ctx : String)
    (ha : occursIn url "anthropic" = true) :
    matchesSchema .anthropic (buildRequestBody_generator url model ctx) = true := by
  simp [buildRequestBody_generator, ha, matchesSchema, hasKey, objLookup, objLookup2,
    objFind, List.find?, isArrVal, isStrVal]

/-- Claim C7 (amended): for every selected provider the request body matches
that provider's schema - for a Gemini selection under the proviso that the
URL (which embeds the raw key) does not contain `anthropic` - and the
8000-token output bound is uniform across all provider shapes in both
handlers. -/
theorem c7_body_schema (keys : ApiKeys) (ctx : String) :
    (∀ c, route_assistant keys = .ok c →
      isNumVal (outTokenBound (buildRequestBody_assistant c.apiUrl c.model ctx)) "8000"
        = true ∧
      ((c.provider = .gemini → occursIn c.apiUrl "anthropic" = false) →
        matchesSchema c.provider (buildRequestBody_assistant c.apiUrl c.model ctx) = true)) ∧
    (∀ c, route_generator keys = .ok c →
      isNumVal (outTokenBound (buildRequestBody_generator c.apiUrl c.model ctx)) "8000"
        = true ∧
      matchesSchema c.provider (buildRequestBody_generator c.apiUrl c.model ctx) = true) := by
  constructor
  · intro c h
    refine ⟨tokenBound_assistant _ _ _, ?_⟩
    intro hg
    rcases route_assistant_shape keys c h with hs | hs | hs | hs | hs <;>
      obtain ⟨hp, hu⟩ := hs
    · rw [hp, hu]
      exact schema_assistant_openaiLike _ _ _ _ (Or.inl rfl) (by decide) (by decide)
    · rw [hp, hu]
      exact schema_assistant_openaiLike _ _ _ _ (Or.inr (Or.inl rfl)) (by decide) (by decide)
    · rw [hp, hu]
      exact schema_assistant_openaiLike _ _ _ _ (Or.inr (Or.inr rfl)) (by decide) (by decide)
    · have hga : occursIn c.apiUrl "anthropic" = false := hg hp
      rw [hp, hu]
      rw [hu] at hga
      exact schema_assistant_gemini _ _ _ hga
        (occursIn_append_left geminiUrlBase (keys.gemini.getD "") "gemini" (by decide))
    · rw [hp, hu]
      exact schema_assistant_anthropic _ _ _ (by decide)
  · intro c h
    refine ⟨tokenBound_generator _ _ _, ?_⟩
    rcases route_generator_shape keys c h with hs | hs | hs | hs <;>
      obtain ⟨hp, hu⟩ := hs
    · rw [hp, hu]
      exact schema_generator_openaiLike _ _ _ _ (Or.inl rfl) (by decide)
    · rw [hp, hu]
      exact schema_generator_openaiLike _ _ _ _ (Or.inr (Or.inl rfl)) (by decide)
    · rw [hp, hu]
      exact schema_generator_openaiLike _ _ _ _ (Or.inr (Or.inr rfl)) (by decide)
    · rw [hp, hu]
      exact schema_generator_anthropic _ _ _ (by decide)

/-- Witness for C7: the OpenAI-only Credential Set yields an
OpenAI-compatible body with bound 8000 in the assistant handler. -/
theorem c7_witness :
    isNumVal (outTokenBound (buildRequestBody_assistant
      "https://api.openai.com/v1/chat/completions" "gpt-5-2025-08-07" "ctx")) "8000"
      = true :=
  (((c7_body_schema openaiOnlyKeys "ctx").1
    { provider := .openai,
      apiUrl := "https://api.openai.com/v1/chat/completions",
      apiKey := "sk-x",
      model := "gpt-5-2025-08-07",
      headers := [("Content-Type", "application/json"), ("Authorization", "Bearer sk-x")] }
    (by rfl)).1)

/-- Counterexample for C7 as stated: the Gemini selection for the key
`anthropic` produces a body that fails the Gemini schema (the URL dispatch
sends it down the Anthropic branch). -/
theorem c7_counterexample :
    route_assistant geminiTrickKeys = .ok geminiTrickChoice ∧
    matchesSchema .gemini
      (buildRequestBody_assistant geminiTrickChoice.apiUrl geminiTrickChoice.model "ctx")
      = false ∧
    matchesSchema .anthropic
      (buildRequestBody_assistant geminiTrickChoice.apiUrl geminiTrickChoice.model "ctx")
      = true := by
  refine ⟨by rfl, ?_, ?_⟩ <;>
  · rw [show geminiTrickChoice.apiUrl =
      "https://generativelanguage.googleapis.com/v1beta/models/gemini-2.5-flash:generateContent?key=anthropic"
      from rfl]
    rw [show geminiTrickChoice.model = "gemini-2.5-flash" from rfl]
    simp only [buildRequestBody_assistant]
    rw [show occursIn
      "https://generativelanguage.googleapis.com/v1beta/models/gemini-2.5-flash:generateContent?key=anthropic"
      "anthropic" = true from by decide]
    rfl



/-- Member access on a non-nullish value never throws and agrees with the
total `fieldOf`. -/
theorem jsGetField_ok (v : JsValue) (k : String) (h : isNullish v = false) :
    jsGetField v k = .ok (fieldOf v k) := by
  cases v <;> simp_all [isNullish, jsGetField, fieldOf]

/-- On elements that are never nullish, the `forEach` translation never
throws and produces the claim-side translation. -/
theorem convertChangesAuxE_ok (items : List JsValue)
    (h : ∀ it ∈ items, isNullish it = false) :
    ∀ acc, convertChangesAuxE items acc = .ok (convertChangesAux items acc) := by
  induction items with
  | nil => intro acc; rfl
  | cons it its ih =>
    intro acc
    have hit : isNullish it = false := h it (List.mem_cons_self it its)
    have hrest : ∀ x ∈ its, isNullish x = false := fun x hx => h x (List.mem_cons_of_mem _ hx)
    simp only [convertChangesAuxE, convertChangesAux, jsGetField_ok it _ hit]
    by_cases hc : (truthy (fieldOf it "file") && truthy (fieldOf it "content")) = true <;>
      simp [Bind.bind, Except.bind, hc, ih hrest]

/-- The wrapper version of `convertChangesAuxE_ok`. -/
theorem convertChangesE_ok (items : List JsValue)
    (h : ∀ it ∈ items, isNullish it = false) :
    convertChangesE items = .ok (convertChanges items) :=
  convertChangesAuxE_ok items h []

/-- A truthy `files` field passes through `tryShape` unchanged. -/
theorem tryShape_files_stable (fields : List (String × JsValue)) (f : JsValue)
    (hf : objFind fields "files" = some f) (ht : truthy f = true) :
    ∃ r, tryShape (.obj fields) = .ok r ∧ objLookup r "files" = some f := by
  unfold tryShape
  simp only [jsGetField, hf, Option.getD_some, ht, Bind.bind, Except.bind, if_true]
  by_cases hr : truthy ((objFind fields "response").getD .undefined) = true
  · exact ⟨.obj fields, by simp [hr, Pure.pure, Except.pure], by simp [objLookup, hf]⟩
  · by_cases ha : truthy ((objFind fields "analysis").getD .undefined) = true
    · exact ⟨.obj fields, by simp [hr, ha, Pure.pure, Except.pure], by simp [objLookup, hf]⟩
    · refine ⟨.obj (objSet fields "response"
        (.str "Changes have been applied successfully.")), ?_, ?_⟩
      · simp [hr, ha, Pure.pure, Except.pure, jsSetField]
      · simp only [objLookup]
        rw [objFind_objSet_ne fields "response" "files" _ (by decide)]
        exact hf

/-- Claim C4 (amended): the v2 normalize step keeps the parsed `files`
mapping exactly as it came - blank or non-string entries are not dropped and
no degradation to a Message happens; the drop/skip logic lives client-side. -/
theorem c4_files_unfiltered (t : String) (fields : List (String × JsValue)) (f : JsValue)
    (hp : jsonParse t = some (.obj fields))
    (hf : objFind fields "files" = some f) (ht : truthy f = true) :
    objLookup (normalize_v2 t) "files" = some f := by
  obtain ⟨r, hr, hl⟩ := tryShape_files_stable fields f hf ht
  simp [normalize_v2, hp, hr, hl]

/-- The response text of claim C4's example. -/
def s4 : String := "\x7b\"files\":\x7b\"a.txt\":\"\"\x7d\x7d"

/-- Witness for C4 at the claim's own example input. -/
theorem c4_witness : objLookup (normalize_v2 s4) "files" = some (.obj [("a.txt", .str "")]) :=
  c4_files_unfiltered s4 [("files", .obj [("a.txt", .str "")])]
    (.obj [("a.txt", .str "")]) (by rfl) (by rfl) (by rfl)

/-- Counterexample for C4 as stated: the blank entry survives and the result
is still FileEdits-shaped, not a Message. -/
theorem c4_counterexample :
    normalize_v2 s4 =
      .obj [("files", .obj [("a.txt", .str "")]),
            ("response", .str "Changes have been applied successfully.")] ∧
    objLookup2 (normalize_v2 s4) "files" "a.txt" = some (.str "") := ⟨rfl, rfl⟩



/-- With no truthy `files` field but a truthy `codeChanges` array free of
nullish elements, `tryShape` installs the translated `files` mapping. -/
theorem tryShape_codeChanges (fields : List (String × JsValue)) (items : List JsValue)
    (hnf : objFind fields "files" = none)
    (hcc : objFind fields "codeChanges" = some (.arr items))
    (hne : ∀ it ∈ items, isNullish it = false) :
    ∃ r, tryShape (.obj fields) = .ok r ∧
      objLookup r "files" = some (.obj (convertChanges items)) := by
  unfold tryShape
  simp only [jsGetField, hnf, hcc, Option.getD_some, Option.getD_none, Bind.bind, Except.bind,
    show truthy JsValue.undefined = false from rfl,
    show truthy (JsValue.arr items) = true from rfl,
    Bool.false_eq_true, if_false, if_true,
    convertChangesE_ok items hne, jsSetField]
  have hfself : objFind (objSet fields "files" (.obj (convertChanges items))) "files" =
      some (.obj (convertChanges items)) := objFind_objSet_self fields "files" _
  by_cases hr : truthy ((objFind (objSet fields "files" (.obj (convertChanges items)))
      "response").getD .undefined) = true
  · refine ⟨.obj (objSet fields "files" (.obj (convertChanges items))), ?_, ?_⟩
    · simp [hr, hfself, Pure.pure, Except.pure]
    · simpa [objLookup] using hfself
  · by_cases ha : truthy ((objFind (objSet fields "files" (.obj (convertChanges items)))
        "analysis").getD .undefined) = true
    · refine ⟨.obj (objSet fields "files" (.obj (convertChanges items))), ?_, ?_⟩
      · simp [hr, ha, hfself, Pure.pure, Except.pure]
      · simpa [objLookup] using hfself
    · refine ⟨.obj (objSet (objSet fields "files" (.obj (convertChanges items)))
        "response" (.str "Changes have been applied successfully.")), ?_, ?_⟩
      · simp [hr, ha, hfself, Pure.pure, Except.pure, jsSetField]
      · simp only [objLookup]
        rw [objFind_objSet_ne _ "response" "files" _ (by decide)]
        exact hfself

/-- Claim C5: a parsed object with no `files` mapping but a `codeChanges`
array is translated into the `files` form, each pair with truthy `file` and
truthy `content` contributing `files[file] = content` in array order. -/
theorem c5_codeChanges_translation (t : String) (fields : List (String × JsValue))
    (items : List JsValue)
    (hp : jsonParse t = some (.obj fields))
    (hnf : objFind fields "files" = none)
    (hcc : objFind fields "codeChanges" = some (.arr items))
    (hne : ∀ it ∈ items, isNullish it = false) :
    objLookup (normalize_v2 t) "files" = some (.obj (convertChanges items)) := by
  obtain ⟨r, hr, hl⟩ := tryShape_codeChanges fields items hnf hcc hne
  simp [normalize_v2, hp, hr, hl]

/-- The response text of claim C5's example. -/
def s5 : String := "\x7b\"codeChanges\":[\x7b\"file\":\"b.txt\",\"content\":\"x\"\x7d]\x7d"

/-- Witness for C5 at the claim's own example input. -/
theorem c5_witness :
    objLookup (normalize_v2 s5) "files" = some (.obj [("b.txt", .str "x")]) := by
  have h := c5_codeChanges_translation s5
    [("codeChanges", .arr [.obj [("file", .str "b.txt"), ("content", .str "x")]])]
    [.obj [("file", .str "b.txt"), ("content", .str "x")]]
    (by rfl) (by rfl) (by rfl)
    (by
      intro it hit
      have := List.mem_singleton.mp hit
      subst this
      rfl)
  rw [h]
  rfl



/-- Claim C2 (amended): once extraction has succeeded, the assistant and v2
normalize steps are total - invalid JSON yields the fixed fallback object or
the recovery result, which always carries a `files` key and a string
`response` - but the project-generator normalize step raises `Failed to
parse AI response` on any text that is not valid JSON. -/
theorem c2_normalize_no_raise (t : String) :
    (jsonParse t = none →
      normalize_assistant t =
        .obj [("response", .str "Changes applied. Unable to parse full response."),
              ("codeChanges", .arr [])] ∧
      normalize_v2 t = recover t ∧
      normalize_generator t = .error "Failed to parse AI response") ∧
    (∀ v, jsonParse t = some v → normalize_generator t = .ok v) ∧
    hasKey (recover t) "files" = true ∧
    (∃ s, objLookup (recover t) "response" = some (.str s)) := by
  refine ⟨?_, ?_, ?_, ?_⟩
  · intro h
    refine ⟨?_, ?_, ?_⟩ <;> simp [normalize_assistant, normalize_v2, normalize_generator, h]
  · intro v h
    simp [normalize_generator, h]
  · by_cases hb : 0 < (codeBlocks t).length <;>
      simp [recover, hb, hasKey, objLookup, objFind, List.find?]
  · by_cases hb : 0 < (codeBlocks t).length
    · exact ⟨"Code extracted and applied successfully.",
        by simp [recover, hb, objLookup, objFind, List.find?]⟩
    · exact ⟨truncate500 t, by simp [recover, hb, objLookup, objFind, List.find?]⟩

/-- Witness for C2: both assistant-path normalize steps absorb the invalid
text `not json`. -/
theorem c2_witness : normalize_v2 "not json" = recover "not json" :=
  ((c2_normalize_no_raise "not json").1 (by rfl)).2.1

/-- Counterexample for C2 as stated: in the project-generator call path the
invalid text `not json` makes normalize raise, so the request fails with an
error instead of producing a degraded result. -/
theorem c2_counterexample :
    normalize_generator "not json" = .error "Failed to parse AI response" := rfl

/-- Claim C3: on any text that is not valid JSON, the v2 normalize step
recovers: with fenced code blocks present, the n-th block body (fences
stripped) lands under `generated-file-<n>.tsx` in block order; with none, the
result is a Message whose content is the raw text, truncated at 500
characters with an appended `...` marker only when longer. -/
theorem c3_recovery_shape (t : String) (h : jsonParse t = none) :
    ((codeBlocks t).length = 0 →
      normalize_v2 t =
        .obj [("analysis", .str "AI response could not be parsed"),
              ("response", .str (truncate500 t)),
              ("files", .obj []),
              ("summary", .str "Response processed but no code changes identified")]) ∧
    (truncate500 t = t.take 500 ++ (if t.length > 500 then "..." else "")) ∧
    ((codeBlocks t).length > 0 →
      objLookup (normalize_v2 t) "files" = some (.obj (genFiles (codeBlocks t)))) ∧
    (∀ i : Nat, (genFiles (codeBlocks t))[i]? =
      ((codeBlocks t)[i]?).map
        (fun b => ("generated-file-" ++ toString (i + 1) ++ ".tsx", JsValue.str b))) := by
  have hv : normalize_v2 t = recover t := by simp [normalize_v2, h]
  refine ⟨?_, rfl, ?_, ?_⟩
  · intro h0
    rw [hv]
    unfold recover
    rw [if_neg (by simp [h0])]
  · intro hpos
    rw [hv]
    unfold recover
    rw [if_pos hpos]
    simp [objLookup, objFind, List.find?]
  · intro i
    simp only [genFiles, List.getElem?_map, List.getElem?_enum]
    cases (codeBlocks t)[i]? <;> simp

/-- A non-JSON text with one fenced block. -/
def s3 : String := "Here:\n" ++ String.mk [tickChar, tickChar, tickChar] ++ "js\nconsole.log(1)\n"
  ++ String.mk [tickChar, tickChar, tickChar]

/-- Witness for C3: the single fenced block of `s3` lands under
`generated-file-1.tsx`, and a blockless text passes through whole. -/
theorem c3_witness :
    objLookup (normalize_v2 s3) "files" =
      some (.obj [("generated-file-1.tsx", .str "console.log(1)")]) ∧
    normalize_v2 "plain text, no JSON" =
      .obj [("analysis", .str "AI response could not be parsed"),
            ("response", .str (truncate500 "plain text, no JSON")),
            ("files", .obj []),
            ("summary", .str "Response processed but no code changes identified")] := by
  constructor
  · have h := ((c3_recovery_shape s3 (by rfl)).2.2.1 (by decide))
    rw [h]
    rfl
  · exact (c3_recovery_shape "plain text, no JSON" (by rfl)).1 (by decide)


end Webcrafter
